import Mathlib

/-!
# Verification of the Gift-bot change-detection and notification pipeline

Shallow embedding of the core of the TelegramGifts/Gift-bot repository:

* `src/gift_monitor.py` — `TelegramGiftMonitor` (change detection over gift
  snapshots) and `GiftNotificationFormatter`;
* `src/notification_engine.py` — `NotificationQueue` and
  `SmartNotificationEngine` (filtering, queueing, dispatching);
* `src/telegram_gift_bot.py` — `DatabaseManager.get_all_users` (subscriber
  store read path).

Conventions of the embedding:

* Python `datetime` instants are modelled as natural numbers counting
  seconds; `timedelta(minutes=1)` is `60`, `timedelta(hours=1)` is `3600`.
  The several `datetime.now()` calls inside one handler are modelled as the
  same instant `now`, threaded explicitly.
* Python dicts are association lists (`dictGet` / `dictSet`); `dict.get`
  returning `None` is `Option`.
* Python object identity matters for `NotificationJob`: the queue holds
  references and `requeue_job` mutates the referenced object.  The model
  therefore keeps a `job_store` (the heap of job objects, keyed by job id)
  and a `queue` of job ids, so that a job enqueued twice aliases one store
  entry, exactly as the Python list holds the same object twice.
* The outcome of the external `client.send_message` call is a parameter of
  the dispatcher step (`SendResult`), mirroring pyrogram's exceptions:
  `FloodWait`, `UserIsBlocked` / `ChatWriteForbidden`, or a generic error.
* Python `str.format` placeholder substitution inside message templates is
  not modelled (no claim depends on the substituted text); the availability
  computation of `_generate_message` / `format_new_gift`, which the claims
  do depend on, is modelled exactly, including Python truthiness of the
  optional availability fields (`None` and `0` are both falsy).
-/

namespace GiftBot

/-! ## Python dict as association list -/

def dictGet {κ α : Type} [DecidableEq κ] : List (κ × α) → κ → Option α
  | [], _ => none
  | (k', v) :: rest, k => if k' = k then some v else dictGet rest k

def dictSet {κ α : Type} [DecidableEq κ] : List (κ × α) → κ → α → List (κ × α)
  | [], k, v => [(k, v)]
  | (k', v') :: rest, k, v =>
      if k' = k then (k, v) :: rest else (k', v') :: dictSet rest k v

theorem dictGet_dictSet {κ α : Type} [DecidableEq κ] (m : List (κ × α)) (k k' : κ) (v : α) :
    dictGet (dictSet m k v) k' = if k = k' then some v else dictGet m k' := by
  induction m with
  | nil => simp [dictGet, dictSet]
  | cons p rest ih =>
      obtain ⟨k0, v0⟩ := p
      by_cases h0 : k0 = k
      · subst h0
        by_cases h1 : k0 = k'
        · subst h1; simp [dictGet, dictSet]
        · simp [dictGet, dictSet, h1]
      · by_cases h1 : k0 = k'
        · subst h1
          simp [dictGet, dictSet, h0, Ne.symm h0]
        · simp [dictGet, dictSet, h0, h1, ih]

theorem mem_dictSet {κ α : Type} [DecidableEq κ] (m : List (κ × α)) (k : κ) (v : α)
    (p : κ × α) (hp : p ∈ dictSet m k v) : p = (k, v) ∨ p ∈ m := by
  induction m with
  | nil => simpa [dictSet] using hp
  | cons q rest ih =>
      obtain ⟨k0, v0⟩ := q
      by_cases h0 : k0 = k
      · simp [dictSet, h0] at hp
        rcases hp with h | h
        · exact Or.inl (by simp [h])
        · exact Or.inr (List.mem_cons_of_mem _ h)
      · simp [dictSet, h0] at hp
        rcases hp with h | h
        · exact Or.inr (by simp [h])
        · rcases ih h with h' | h'
          · exact Or.inl h'
          · exact Or.inr (List.mem_cons_of_mem _ h')

/-! ## Data model: gifts (`gift_monitor.py`, `_parse_gift`) -/

structure Gift where
  id : Nat
  title : String
  stars : Nat
  limited : Bool
  sold_out : Bool
  require_premium : Bool
  can_upgrade : Bool
  availability_remains : Option Nat
  availability_total : Option Nat
  discovered_at : Nat
deriving DecidableEq, Repr

/-- Python truthiness of an optional integer: `None` and `0` are falsy. -/
def truthyNat : Option Nat → Bool
  | none => false
  | some n => decide (n ≠ 0)

/-! ## Change detection (`TelegramGiftMonitor`) -/

structure GiftsData where
  hash : Nat
  gifts : List Gift
deriving DecidableEq, Repr

structure MonitorState where
  last_hash : Nat
  known_gifts : List (Nat × Gift)
deriving DecidableEq, Repr

/-- `TelegramGiftMonitor._gift_changed`: compares the fields
`['sold_out', 'availability_remains', 'stars']`. -/
def gift_changed (old_gift new_gift : Gift) : Bool :=
  decide (old_gift.sold_out ≠ new_gift.sold_out) ||
  decide (old_gift.availability_remains ≠ new_gift.availability_remains) ||
  decide (old_gift.stars ≠ new_gift.stars)

/-- The body of the `for gift in gifts_data['gifts']` loop of
`TelegramGiftMonitor._check_for_new_gifts`: threads the `known_gifts` dict
and accumulates the `new_gifts` and `updated_gifts` lists in snapshot
order. -/
def processGifts : List (Nat × Gift) → List Gift → List (Nat × Gift) × List Gift × List Gift
  | known, [] => (known, [], [])
  | known, g :: gs =>
      match dictGet known g.id with
      | none =>
          let r := processGifts (dictSet known g.id g) gs
          (r.1, g :: r.2.1, r.2.2)
      | some old =>
          if gift_changed old g then
            let r := processGifts (dictSet known g.id g) gs
            (r.1, r.2.1, g :: r.2.2)
          else
            processGifts known gs

/-- `TelegramGiftMonitor._check_for_new_gifts`: `none` models
`get_star_gifts` returning `None` (poll abandoned).  If the snapshot hash
equals `last_hash` the diff is skipped entirely.  Returns the new monitor
state, the `new_gifts` list and the `updated_gifts` list. -/
def check_for_new_gifts (st : MonitorState) (gifts_data : Option GiftsData) :
    MonitorState × List Gift × List Gift :=
  match gifts_data with
  | none => (st, [], [])
  | some gd =>
      if gd.hash ≠ st.last_hash then
        let r := processGifts st.known_gifts gd.gifts
        ({ last_hash := gd.hash, known_gifts := r.1 }, r.2.1, r.2.2)
      else
        (st, [], [])

/-- `TelegramGiftMonitor._should_notify`: the gate applied before invoking
the callback on each new/updated gift (`gift.get('sold_out', True)`). -/
def monitor_should_notify (gift : Gift) : Bool :=
  gift.limited && !gift.sold_out && decide (gift.stars > 0)

/-- The two callback loops at the end of `_check_for_new_gifts`: the
callback fires only for gifts passing `_should_notify`. -/
def monitor_callbacks (new_gifts updated_gifts : List Gift) : List Gift × List Gift :=
  (new_gifts.filter monitor_should_notify, updated_gifts.filter monitor_should_notify)

/-- The availability-percentage component of
`GiftNotificationFormatter.format_new_gift` (`gift_monitor.py`): the
`remaining/total (percent)` line is produced only when both
`availability_remains` and `availability_total` are truthy; the float
percentage is modelled as the integer `remains * 100 / total`. -/
def format_new_gift_availability (gift : Gift) : Option (Nat × Nat × Nat) :=
  if truthyNat gift.availability_remains && truthyNat gift.availability_total then
    let remaining := gift.availability_remains.getD 0
    let total := gift.availability_total.getD 0
    some (remaining, total, remaining * 100 / total)
  else
    none

/-! ## Notification engine data model (`notification_engine.py`) -/

inductive NotificationPriority where
  | low
  | normal
  | high
  | urgent
deriving DecidableEq, Repr

/-- The `Enum` values `LOW = 1 .. URGENT = 4`. -/
def NotificationPriority.value : NotificationPriority → Nat
  | .low => 1
  | .normal => 2
  | .high => 3
  | .urgent => 4

inductive NotificationType where
  | new_gift
  | gift_update
  | price_drop
  | limited_available
  | system_alert
  | promotion
deriving DecidableEq, Repr

structure CustomButton where
  text : String
  url : Option String
  callback_data : Option String
deriving DecidableEq, Repr

structure InlineButton where
  text : String
  url : Option String
  callback_data : Option String
deriving DecidableEq, Repr

/-- `InlineKeyboardMarkup`: rows of buttons. -/
abbrev Markup := List (List InlineButton)

structure NotificationTemplate where
  name : String
  title : String
  message : String
  emoji : String
  priority : NotificationPriority
  has_buttons : Bool
  custom_buttons : Option (List CustomButton)
deriving DecidableEq, Repr

structure NotificationFilter where
  min_stars : Nat
  max_stars : Nat
  only_limited : Bool
  only_premium : Bool
  exclude_premium_required : Bool
  keywords : Option (List String)
  excluded_keywords : Option (List String)
  time_restrictions : Option (List Nat)
deriving DecidableEq, Repr

structure NotificationJob where
  id : Nat
  user_id : Nat
  message : String
  notification_type : NotificationType
  priority : NotificationPriority
  created_at : Nat
  scheduled_at : Nat
  attempts : Nat
  max_attempts : Nat
  metadata : Option Gift
  buttons : Option Markup
deriving DecidableEq, Repr

/-- One entry of `self.notification_history[user_id]`
(`_record_notification` appends `{'type', 'timestamp', 'job_id'}`). -/
structure HistoryEntry where
  ntype : NotificationType
  timestamp : Nat
  job_id : Nat
deriving DecidableEq, Repr

/-- `users` table row (`telegram_gift_bot.py`, dataclass `User`). -/
structure User where
  user_id : Nat
  username : String
  first_name : String
  is_premium : Bool
  subscription_date : Nat
  notifications_enabled : Bool
  min_stars : Nat
  max_stars : Nat
  only_limited : Bool
  language : String
deriving DecidableEq, Repr

/-! ## `NotificationQueue`

The Python queue is a list of references to `NotificationJob` objects; the
model separates the heap (`job_store`, keyed by job id) from the list of
references (`queue`), so that one job object enqueued twice is shared. -/

structure QueueState where
  job_store : List (Nat × NotificationJob)
  queue : List Nat
  processing : Bool
  total_queued : Nat
  total_sent : Nat
  total_failed : Nat
  last_reset : Nat
deriving DecidableEq, Repr

/-- The sort key of `add_job`: `(x.priority.value, x.created_at)`.
A dangling reference (impossible in Python) gets the least key. -/
def sortKey (store : List (Nat × NotificationJob)) (jid : Nat) : Nat × Nat :=
  match dictGet store jid with
  | some j => (j.priority.value, j.created_at)
  | none => (0, 0)

/-- Descending lexicographic comparison on sort keys: `a` may come before
`b` in the queue iff `lexGe a b`. -/
def lexGe (a b : Nat × Nat) : Bool :=
  decide (b.1 < a.1) || (decide (a.1 = b.1) && decide (b.2 ≤ a.2))

/-- Stable insertion of `x` into a descending-sorted list: `x` goes after
every element whose key is `≥` its own, keeping insertion order on ties. -/
def insort (key : Nat → Nat × Nat) (x : Nat) : List Nat → List Nat
  | [] => [x]
  | y :: ys => if lexGe (key y) (key x) then y :: insort key x ys else x :: y :: ys

/-- Python's stable `list.sort(key=..., reverse=True)`: a stable descending
sort (insertion sort, extensionally equal to timsort on any list). -/
def py_sort_desc (key : Nat → Nat × Nat) (l : List Nat) : List Nat :=
  l.foldl (fun acc x => insort key x acc) []

/-- `NotificationQueue.add_job`: append the job and re-sort by
`(priority.value, created_at)` with `reverse=True`; `total_queued += 1`. -/
def add_job (q : QueueState) (job : NotificationJob) : QueueState :=
  let store := dictSet q.job_store job.id job
  { q with
      job_store := store
      queue := py_sort_desc (sortKey store) (q.queue ++ [job.id])
      total_queued := q.total_queued + 1 }

/-- The eligibility test of `get_next_job`:
`job.scheduled_at <= now and job.attempts < job.max_attempts`. -/
def eligible_job (store : List (Nat × NotificationJob)) (now : Nat) (jid : Nat) : Bool :=
  match dictGet store jid with
  | some j => decide (j.scheduled_at ≤ now) && decide (j.attempts < j.max_attempts)
  | none => false

/-- The scan-and-`pop(i)` of `get_next_job`: remove and return the first
eligible reference, leaving the rest of the queue in order. -/
def pop_first_eligible (store : List (Nat × NotificationJob)) (now : Nat) :
    List Nat → Option Nat × List Nat
  | [] => (none, [])
  | jid :: rest =>
      if eligible_job store now jid then (some jid, rest)
      else
        let r := pop_first_eligible store now rest
        (r.1, jid :: r.2)

/-- `NotificationQueue.get_next_job`. -/
def get_next_job (q : QueueState) (now : Nat) : Option Nat × QueueState :=
  let r := pop_first_eligible q.job_store now q.queue
  (r.1, { q with queue := r.2 })

/-- `NotificationQueue.requeue_job`: mutate the referenced job
(`attempts += 1`, `scheduled_at = now + delay`), then re-add it while
`attempts < max_attempts`, else `total_failed += 1`. -/
def requeue_job (q : QueueState) (jid : Nat) (delay_seconds : Nat) (now : Nat) : QueueState :=
  match dictGet q.job_store jid with
  | none => q
  | some j =>
      let j' := { j with attempts := j.attempts + 1, scheduled_at := now + delay_seconds }
      let q' := { q with job_store := dictSet q.job_store jid j' }
      if j'.attempts < j'.max_attempts then add_job q' j'
      else { q' with total_failed := q'.total_failed + 1 }

/-! ## `SmartNotificationEngine` -/

/-- Outcome of the external `client.send_message` call, mirroring the
exception clauses of `_send_notification`: success, `FloodWait(seconds)`,
`UserIsBlocked` / `ChatWriteForbidden`, or any other exception. -/
inductive SendResult where
  | ok
  | flood_wait (seconds : Nat)
  | blocked
  | other_error
deriving DecidableEq, Repr

structure EngineState where
  queue : QueueState
  templates : List (NotificationType × NotificationTemplate)
  filters : List (Nat × NotificationFilter)
  running : Bool
  messages_per_minute : Nat
  messages_per_hour : Nat
  sent_messages : List Nat
  notification_history : List (Nat × List HistoryEntry)
  db : List User
  next_job_id : Nat
deriving DecidableEq, Repr

/-- `load_notification_templates`.  The long Persian `str.format` bodies
are abbreviated to opaque stand-ins because placeholder substitution is not
modelled; all other template attributes are as in the source. -/
def load_notification_templates : List (NotificationType × NotificationTemplate) :=
  [ (NotificationType.new_gift,
     { name := "new_gift_template", title := "new_gift_title",
       message := "new_gift_body", emoji := "gift",
       priority := NotificationPriority.high, has_buttons := true,
       custom_buttons := some
         [ { text := "buy_fast", url := some "https://t.me/giftbot", callback_data := none },
           { text := "more_details", url := none, callback_data := some "gift_details_id" } ] }),
    (NotificationType.price_drop,
     { name := "price_drop_template", title := "price_drop_title",
       message := "price_drop_body", emoji := "money",
       priority := NotificationPriority.urgent, has_buttons := true,
       custom_buttons := none }),
    (NotificationType.limited_available,
     { name := "limited_available_template", title := "limited_available_title",
       message := "limited_available_body", emoji := "bolt",
       priority := NotificationPriority.urgent, has_buttons := true,
       custom_buttons := none }) ]

/-- `DatabaseManager.get_all_users` (`telegram_gift_bot.py`):
`SELECT * FROM users WHERE notifications_enabled = 1`. -/
def get_all_users (db : List User) : List User :=
  db.filter (fun u => u.notifications_enabled)

/-- The `NotificationFilter(min_stars=..., max_stars=..., only_limited=...)`
built by `load_user_filters` for one user; the remaining filter fields keep
their dataclass defaults. -/
def user_filter_of (u : User) : NotificationFilter :=
  { min_stars := u.min_stars, max_stars := u.max_stars,
    only_limited := u.only_limited, only_premium := false,
    exclude_premium_required := false, keywords := none,
    excluded_keywords := none, time_restrictions := none }

/-- `load_user_filters`: one filter entry per user returned by
`get_all_users`. -/
def load_user_filters (users : List User) : List (Nat × NotificationFilter) :=
  users.foldl (fun m u => dictSet m u.user_id (user_filter_of u)) []

/-- `SmartNotificationEngine.__init__` for a given external user store. -/
def init_engine (db : List User) : EngineState :=
  { queue := { job_store := [], queue := [], processing := false,
               total_queued := 0, total_sent := 0, total_failed := 0, last_reset := 0 }
    templates := load_notification_templates
    filters := load_user_filters (get_all_users db)
    running := false
    messages_per_minute := 20
    messages_per_hour := 1000
    sent_messages := []
    notification_history := []
    db := db
    next_job_id := 0 }

/-- The per-kind hourly caps of `_check_notification_frequency`
(`limits.get(notification_type, 5)`). -/
def freq_limit : NotificationType → Nat
  | .new_gift => 10
  | .price_drop => 5
  | .limited_available => 3
  | .system_alert => 2
  | .gift_update => 5
  | .promotion => 5

/-- `_check_notification_frequency`: prune entries older than one hour
(writing the pruned list back), count recent entries of the same type, and
compare against the per-kind cap. -/
def check_notification_frequency (st : EngineState) (user_id : Nat)
    (ntype : NotificationType) (now : Nat) : Bool × EngineState :=
  let user_history := (dictGet st.notification_history user_id).getD []
  let pruned := user_history.filter (fun n => decide (now - n.timestamp < 3600))
  let st' := { st with notification_history := dictSet st.notification_history user_id pruned }
  let same_type_count := (pruned.filter (fun n => decide (n.ntype = ntype))).length
  (decide (same_type_count < freq_limit ntype), st')

/-- Python substring test `needle in hay` (`''` is in every string). -/
def str_contains (hay needle : String) : Bool :=
  decide (needle = "") || decide ((hay.splitOn needle).length > 1)

/-- Python truthiness of an optional list (`None` and `[]` are falsy). -/
def truthyList {α : Type} : Option (List α) → Bool
  | none => false
  | some l => !l.isEmpty

/-- `should_notify_user`: looks up the user's filter (absent ⇒ `False`),
then applies the star-range, limited, premium, keyword and time checks, and
finally the anti-spam frequency check (the only check that touches
state). -/
def should_notify_user (st : EngineState) (user_id : Nat) (gift_data : Gift)
    (ntype : NotificationType) (now : Nat) : Bool × EngineState :=
  match dictGet st.filters user_id with
  | none => (false, st)
  | some user_filter =>
      let stars := gift_data.stars
      if decide (stars < user_filter.min_stars) || decide (stars > user_filter.max_stars) then
        (false, st)
      else if user_filter.only_limited && !gift_data.limited then
        (false, st)
      else if user_filter.exclude_premium_required && gift_data.require_premium then
        (false, st)
      else if truthyList user_filter.keywords &&
          !((user_filter.keywords.getD []).any
              (fun kw => str_contains gift_data.title.toLower kw.toLower)) then
        (false, st)
      else if truthyList user_filter.excluded_keywords &&
          ((user_filter.excluded_keywords.getD []).any
              (fun kw => str_contains gift_data.title.toLower kw.toLower)) then
        (false, st)
      else if truthyList user_filter.time_restrictions &&
          !((user_filter.time_restrictions.getD []).isEmpty) &&
          !((user_filter.time_restrictions.getD []).contains (now / 3600 % 24)) then
        (false, st)
      else
        check_notification_frequency st user_id ntype now

/-- The availability-info component of `_generate_message`
(`notification_engine.py`): same truthiness guard and division as
`format_new_gift_availability`; `none` models the empty
`availability_info` string. -/
def availability_info (data : Gift) : Option (Nat × Nat × Nat) :=
  if truthyNat data.availability_remains && truthyNat data.availability_total then
    let remaining := data.availability_remains.getD 0
    let total := data.availability_total.getD 0
    some (remaining, total, remaining * 100 / total)
  else
    none

/-- `_generate_message`: template body plus the availability line (the
other `str.format` substitutions are not modelled). -/
def generate_message (template : NotificationTemplate) (data : Gift) : String :=
  match availability_info data with
  | some rtp => template.message ++ " " ++ toString rtp.1 ++ "/" ++ toString rtp.2.1 ++
      " (" ++ toString rtp.2.2 ++ "%)"
  | none => template.message

/-- Pairing of buttons into rows of two (`_generate_buttons`). -/
def rows_of_two : List InlineButton → Markup
  | [] => []
  | [b] => [[b]]
  | a :: b :: rest => [a, b] :: rows_of_two rest

/-- `_generate_buttons`: `None` when there are no custom buttons
(Python falsiness of `None`/`[]`); a `url` button when `'url'` is present,
else a callback button when `'callback_data'` is present. -/
def generate_buttons (template : NotificationTemplate) (_data : Gift) : Option Markup :=
  match template.custom_buttons with
  | none => none
  | some cbs =>
      if cbs.isEmpty then none
      else
        let buttons : List InlineButton := cbs.filterMap (fun b =>
          match b.url, b.callback_data with
          | some u, _ => some { text := b.text, url := some u, callback_data := none }
          | none, some c => some { text := b.text, url := none, callback_data := some c }
          | none, none => none)
        some (rows_of_two buttons)

/-- The body of `create_notification`'s `for user_id in user_ids` loop:
run `should_notify_user` (skip on rejection); on acceptance render the
message and buttons, build a fresh job (`attempts = 0`, `max_attempts = 3`,
`created_at = scheduled_at = now`) and enqueue it.  The md5-based unique
job id is modelled by the fresh counter `next_job_id`. -/
def create_notification_step (template : NotificationTemplate) (gift_data : Gift)
    (ntype : NotificationType) (priority : NotificationPriority) (now : Nat)
    (acc : List Nat × EngineState) (uid : Nat) : List Nat × EngineState :=
  let r := should_notify_user acc.2 uid gift_data ntype now
  if !r.1 then (acc.1, r.2)
  else
    let message := generate_message template gift_data
    let buttons := if template.has_buttons then generate_buttons template gift_data else none
    let job_id := r.2.next_job_id
    let job : NotificationJob :=
      { id := job_id, user_id := uid, message := message,
        notification_type := ntype, priority := priority,
        created_at := now, scheduled_at := now,
        attempts := 0, max_attempts := 3,
        metadata := some gift_data, buttons := buttons }
    (acc.1 ++ [job_id],
     { r.2 with queue := add_job r.2.queue job, next_job_id := r.2.next_job_id + 1 })

/-- `create_notification`: look up the template for the kind (no template ⇒
no jobs), then run the fan-out loop; returns the created job ids. -/
def create_notification (st : EngineState) (user_ids : List Nat) (gift_data : Gift)
    (ntype : NotificationType) (priority : NotificationPriority) (now : Nat) :
    List Nat × EngineState :=
  match dictGet st.templates ntype with
  | none => ([], st)
  | some template =>
      user_ids.foldl (create_notification_step template gift_data ntype priority now) ([], st)

/-- `_check_rate_limits`: drop sent-message timestamps older than one
minute (the pruned list is written back), then pass iff the window holds
fewer than `messages_per_minute` sends. -/
def check_rate_limits (st : EngineState) (now : Nat) : Bool × EngineState :=
  let sent := st.sent_messages.filter (fun msg => decide (now - msg < 60))
  (decide (sent.length < st.messages_per_minute), { st with sent_messages := sent })

/-- `_mark_user_inactive`:
`UPDATE users SET notifications_enabled = 0 WHERE user_id = ?`. -/
def mark_user_inactive (st : EngineState) (user_id : Nat) : EngineState :=
  { st with db := st.db.map (fun u =>
      if u.user_id = user_id then { u with notifications_enabled := false } else u) }

/-- `_send_notification` on the job referenced by `jid`, with the transport
outcome as a parameter.  Success appends `now` to `sent_messages`;
`FloodWait e` sets `scheduled_at = now + e.value` on the job object and
calls `requeue_job(job, delay_seconds=e.value)`; a blocked/forbidden
recipient triggers `_mark_user_inactive`; every failure returns `False`. -/
def send_notification (st : EngineState) (jid : Nat) (outcome : SendResult) (now : Nat) :
    Bool × EngineState :=
  match outcome with
  | .ok => (true, { st with sent_messages := st.sent_messages ++ [now] })
  | .flood_wait n =>
      let st1 :=
        match dictGet st.queue.job_store jid with
        | some j =>
            { st with queue := { st.queue with
                job_store := dictSet st.queue.job_store jid { j with scheduled_at := now + n } } }
        | none => st
      (false, { st1 with queue := requeue_job st1.queue jid n now })
  | .blocked =>
      match dictGet st.queue.job_store jid with
      | some j => (false, mark_user_inactive st j.user_id)
      | none => (false, st)
  | .other_error => (false, st)

/-- `_record_notification`: append `{'type', 'timestamp', 'job_id'}` to the
sender's history (creating the list if absent). -/
def record_notification (st : EngineState) (jid : Nat) (now : Nat) : EngineState :=
  match dictGet st.queue.job_store jid with
  | none => st
  | some job =>
      let hist := (dictGet st.notification_history job.user_id).getD []
      let entry : HistoryEntry := { ntype := job.notification_type, timestamp := now, job_id := job.id }
      { st with notification_history := dictSet st.notification_history job.user_id (hist ++ [entry]) }

/-- One dispatcher step, `_process_queue`: guarded by the `processing`
flag; checks rate limits, takes the next job, attempts the send; on success
`total_sent += 1` and the notification is recorded, on failure the job is
requeued with the default 60-second delay; `finally` clears `processing`. -/
def process_queue (st : EngineState) (send : NotificationJob → SendResult) (now : Nat) :
    EngineState :=
  if st.queue.processing then st
  else
    let stp := { st with queue := { st.queue with processing := true } }
    let body :=
      let rc := check_rate_limits stp now
      if !rc.1 then rc.2
      else
        let gn := get_next_job rc.2.queue now
        let st1 := { rc.2 with queue := gn.2 }
        match gn.1 with
        | none => st1
        | some jid =>
            match dictGet st1.queue.job_store jid with
            | none => st1
            | some job =>
                let sr := send_notification st1 jid (send job) now
                if sr.1 then
                  let st2 := { sr.2 with queue :=
                    { sr.2.queue with total_sent := sr.2.queue.total_sent + 1 } }
                  record_notification st2 jid now
                else
                  { sr.2 with queue := requeue_job sr.2.queue jid 60 now }
    { body with queue := { body.queue with processing := false } }

/-! ## Concrete fixtures used by witnesses and counterexamples -/

def giftGolden : Gift :=
  { id := 42, title := "Golden Star", stars := 500, limited := true,
    sold_out := false, require_premium := false, can_upgrade := false,
    availability_remains := some 10, availability_total := some 100, discovered_at := 0 }

def smallMonitor : MonitorState := { last_hash := 5, known_gifts := [] }

def smallSnap : GiftsData := { hash := 5, gifts := [giftGolden] }

/-- Job fixture builder (fields irrelevant to a scenario get fixed values). -/
def mk_job (i uid : Nat) (p : NotificationPriority) (created sched attempts maxA : Nat) :
    NotificationJob :=
  { id := i, user_id := uid, message := "msg", notification_type := NotificationType.new_gift,
    priority := p, created_at := created, scheduled_at := sched,
    attempts := attempts, max_attempts := maxA, metadata := none, buttons := none }

def empty_queue : QueueState :=
  { job_store := [], queue := [], processing := false,
    total_queued := 0, total_sent := 0, total_failed := 0, last_reset := 0 }

def user7 : User :=
  { user_id := 7, username := "alice", first_name := "Alice", is_premium := false,
    subscription_date := 0, notifications_enabled := true, min_stars := 0, max_stars := 1000,
    only_limited := true, language := "fa" }

def user9 : User :=
  { user_id := 9, username := "bob", first_name := "Bob", is_premium := false,
    subscription_date := 0, notifications_enabled := false, min_stars := 0, max_stars := 1000,
    only_limited := true, language := "fa" }

/-- Two equal-priority jobs; `jobLate` was created later but inserted first. -/
def jobLate : NotificationJob := mk_job 0 7 NotificationPriority.normal 1 0 0 3

def jobEarly : NotificationJob := mk_job 1 7 NotificationPriority.normal 0 0 0 3

def queueLate : QueueState := add_job (add_job empty_queue jobLate) jobEarly

/-- The spec's scenario: A:Normal@t0, B:Urgent@t1>t0, C:Normal@t0, added in
that order. -/
def jobA : NotificationJob := mk_job 10 7 NotificationPriority.normal 0 0 0 3

def jobB : NotificationJob := mk_job 11 7 NotificationPriority.urgent 1 0 0 3

def jobC : NotificationJob := mk_job 12 7 NotificationPriority.normal 0 0 0 3

def queueABC : QueueState := add_job (add_job (add_job empty_queue jobA) jobB) jobC

/-- Engine with one subscriber (id 7) and one eligible queued job (id 0). -/
def engine7 : EngineState :=
  let e := init_engine [user7]
  { e with queue := add_job e.queue (mk_job 0 7 NotificationPriority.normal 0 0 0 3) }

/-- Engine with one subscriber and two eligible queued jobs (ids 0 and 1). -/
def engine7two : EngineState :=
  let e := init_engine [user7]
  let q := add_job (add_job e.queue (mk_job 0 7 NotificationPriority.normal 0 0 0 3))
    (mk_job 1 7 NotificationPriority.normal 0 0 0 3)
  { e with queue := q }

def send_blocked_fn : NotificationJob → SendResult := fun _ => SendResult.blocked

def send_flood_then_ok : NotificationJob → SendResult :=
  fun j => if j.id = 0 then SendResult.flood_wait 100 else SendResult.ok

def send_flood5_fn : NotificationJob → SendResult := fun _ => SendResult.flood_wait 5

def send_ok_fn : NotificationJob → SendResult := fun _ => SendResult.ok

/-- The queue invariant maintained by `add_job`'s sort: descending
`(priority.value, created_at)` order, read through the job store. -/
def QueueSorted (q : QueueState) : Prop :=
  List.Pairwise (fun a b => lexGe (sortKey q.job_store a) (sortKey q.job_store b) = true) q.queue

/-- A snapshot whose change-token differs from `smallMonitor`'s. -/
def snapNew : GiftsData := { hash := 6, gifts := [giftGolden] }

/-- The per-subscriber, per-kind count of frequency-window entries within
the trailing hour at instant `now` — the quantity `same_type_count` that
`_check_notification_frequency` compares against the cap. -/
def recent_count (st : EngineState) (uid : Nat) (k : NotificationType) (now : Nat) : Nat :=
  (((dictGet st.notification_history uid).getD []).filter
    (fun e => decide (now - e.timestamp < 3600) && decide (e.ntype = k))).length

/-- The number of sends recorded within the trailing 60-second window at
instant `now` — the quantity `_check_rate_limits` compares against
`messages_per_minute`. -/
def recent_sends (msgs : List Nat) (now : Nat) : Nat :=
  (msgs.filter (fun msg => decide (now - msg < 60))).length

/-! # Theorems -/

/-! ## Sorting lemmas for the queue order (`add_job` / `get_next_job`) -/

theorem lexGe_refl (a : Nat × Nat) : lexGe a a = true := by
  simp [lexGe]

theorem lexGe_total (a b : Nat × Nat) : lexGe a b = true ∨ lexGe b a = true := by
  simp only [lexGe, Bool.or_eq_true, Bool.and_eq_true, decide_eq_true_eq]
  omega

theorem lexGe_trans {a b c : Nat × Nat} (hab : lexGe a b = true) (hbc : lexGe b c = true) :
    lexGe a c = true := by
  simp only [lexGe, Bool.or_eq_true, Bool.and_eq_true, decide_eq_true_eq] at hab hbc ⊢
  omega

theorem mem_insort (key : Nat → Nat × Nat) (x : Nat) (l : List Nat) (y : Nat) :
    y ∈ insort key x l ↔ y = x ∨ y ∈ l := by
  induction l with
  | nil => simp [insort]
  | cons z zs ih =>
      by_cases h : lexGe (key z) (key x) = true
      · simp only [insort, if_pos h, List.mem_cons, ih]
        tauto
      · simp only [insort, if_neg h, List.mem_cons]

theorem count_insort (key : Nat → Nat × Nat) (x : Nat) (l : List Nat) (y : Nat) :
    (insort key x l).count y = (x :: l).count y := by
  induction l with
  | nil => simp [insort]
  | cons z zs ih =>
      by_cases h : lexGe (key z) (key x) = true
      · simp only [insort, if_pos h]
        rw [List.count_cons, List.count_cons, ih, List.count_cons, List.count_cons]
        omega
      · simp [insort, if_neg h]

theorem insort_pairwise (key : Nat → Nat × Nat) (x : Nat) (l : List Nat)
    (hl : List.Pairwise (fun a b => lexGe (key a) (key b) = true) l) :
    List.Pairwise (fun a b => lexGe (key a) (key b) = true) (insort key x l) := by
  induction l with
  | nil => simp [insort]
  | cons z zs ih =>
      rcases hl with _ | ⟨hz, hzs⟩
      by_cases h : lexGe (key z) (key x) = true
      · rw [insort, if_pos h]
        refine List.Pairwise.cons ?_ (ih hzs)
        intro y hy
        rcases (mem_insort key x zs y).mp hy with rfl | hy'
        · exact h
        · exact hz y hy'
      · rw [insort, if_neg h]
        have hx : lexGe (key x) (key z) = true := by
          rcases lexGe_total (key z) (key x) with h' | h'
          · exact absurd h' h
          · exact h'
        refine List.Pairwise.cons ?_ (List.Pairwise.cons hz hzs)
        intro y hy
        rcases List.mem_cons.mp hy with rfl | hy'
        · exact hx
        · exact lexGe_trans hx (hz y hy')

theorem foldl_insort_pairwise (key : Nat → Nat × Nat) (l acc : List Nat)
    (hacc : List.Pairwise (fun a b => lexGe (key a) (key b) = true) acc) :
    List.Pairwise (fun a b => lexGe (key a) (key b) = true)
      (l.foldl (fun acc x => insort key x acc) acc) := by
  induction l generalizing acc with
  | nil => simpa using hacc
  | cons z zs ih => exact ih _ (insort_pairwise key z acc hacc)

theorem py_sort_desc_pairwise (key : Nat → Nat × Nat) (l : List Nat) :
    List.Pairwise (fun a b => lexGe (key a) (key b) = true) (py_sort_desc key l) :=
  foldl_insort_pairwise key l [] (List.Pairwise.nil)

theorem foldl_insort_count (key : Nat → Nat × Nat) (l : List Nat) (y : Nat) :
    ∀ acc : List Nat,
      (l.foldl (fun acc x => insort key x acc) acc).count y = acc.count y + l.count y := by
  induction l with
  | nil => intro acc; simp
  | cons z zs ih =>
      intro acc
      rw [List.foldl_cons, ih, count_insort, List.count_cons, List.count_cons]
      omega

theorem count_py_sort_desc (key : Nat → Nat × Nat) (l : List Nat) (y : Nat) :
    (py_sort_desc key l).count y = l.count y := by
  rw [py_sort_desc, foldl_insort_count]
  simp

theorem mem_py_sort_desc (key : Nat → Nat × Nat) (l : List Nat) (y : Nat) :
    y ∈ py_sort_desc key l ↔ y ∈ l := by
  rw [← List.count_pos_iff, ← List.count_pos_iff, count_py_sort_desc]

theorem pop_first_eligible_sublist (store : List (Nat × NotificationJob)) (now : Nat)
    (l : List Nat) : (pop_first_eligible store now l).2.Sublist l := by
  induction l with
  | nil => simp [pop_first_eligible]
  | cons jid rest ih =>
      by_cases h : eligible_job store now jid = true
      · simp only [pop_first_eligible, if_pos h]
        exact List.sublist_cons_self _ _
      · simp only [pop_first_eligible, if_neg h]
        exact List.Sublist.cons₂ _ ih

theorem pop_first_eligible_spec (store : List (Nat × NotificationJob)) (now : Nat)
    (l : List Nat)
    (hl : List.Pairwise (fun a b => lexGe (sortKey store a) (sortKey store b) = true) l)
    (jid : Nat) (h : (pop_first_eligible store now l).1 = some jid) :
    eligible_job store now jid = true ∧
      ∀ j' ∈ l, eligible_job store now j' = true →
        lexGe (sortKey store jid) (sortKey store j') = true := by
  induction l with
  | nil => simp [pop_first_eligible] at h
  | cons z zs ih =>
      rcases hl with _ | ⟨hz, hzs⟩
      by_cases he : eligible_job store now z = true
      · simp only [pop_first_eligible, if_pos he] at h
        obtain rfl : z = jid := by simpa using h
        refine ⟨he, ?_⟩
        intro j' hj' _
        rcases List.mem_cons.mp hj' with rfl | hmem
        · exact lexGe_refl _
        · exact hz j' hmem
      · simp only [pop_first_eligible, if_neg he] at h
        obtain ⟨h1, h2⟩ := ih hzs h
        refine ⟨h1, ?_⟩
        intro j' hj' helig
        rcases List.mem_cons.mp hj' with rfl | hmem
        · exact absurd helig he
        · exact h2 j' hmem helig

theorem sortKey_set_same_key (store : List (Nat × NotificationJob)) (jid : Nat)
    (j j' : NotificationJob) (hj : dictGet store jid = some j)
    (hp : j'.priority = j.priority) (hc : j'.created_at = j.created_at) (x : Nat) :
    sortKey (dictSet store jid j') x = sortKey store x := by
  by_cases hx : jid = x
  · subst hx
    simp [sortKey, dictGet_dictSet, hj, hp, hc]
  · simp [sortKey, dictGet_dictSet, hx]

/-- C1, counterexample to the claimed FIFO tie-break: two eligible jobs of
equal priority, where the one created later (`jobLate`, created at 1) is
returned by `get_next_job` ahead of the one created earlier (`jobEarly`,
created at 0) — `list.sort(..., reverse=True)` reverses the `created_at`
component of the key as well, so ties in priority are broken by *latest*
`created_at`, not earliest. -/
theorem C1_counterexample :
    (get_next_job queueLate 5).1 = some jobLate.id ∧
    jobLate.id ≠ jobEarly.id ∧
    eligible_job queueLate.job_store 5 jobEarly.id = true ∧
    eligible_job queueLate.job_store 5 jobLate.id = true ∧
    (dictGet queueLate.job_store jobLate.id).map NotificationJob.priority =
      (dictGet queueLate.job_store jobEarly.id).map NotificationJob.priority ∧
    jobEarly.created_at < jobLate.created_at := by
  decide

/-- C1 (amended): `add_job` always leaves the queue sorted by descending
`(priority.value, created_at)`; `get_next_job` and `requeue_job` preserve
that invariant; on a sorted queue `get_next_job` returns an eligible job
whose key dominates every eligible job's key (highest priority first, ties
broken by *latest* `created_at`, insertion order on exact key ties); and on
the spec's scenario {A:Normal@0, B:Urgent@1, C:Normal@0} it returns B, then
A, then C. -/
theorem C1_amended_queue_ordering :
    (∀ (q : QueueState) (job : NotificationJob), QueueSorted (add_job q job)) ∧
    (∀ (q : QueueState) (now : Nat), QueueSorted q → QueueSorted (get_next_job q now).2) ∧
    (∀ (q : QueueState) (jid delay now : Nat), QueueSorted q →
        QueueSorted (requeue_job q jid delay now)) ∧
    (∀ (q : QueueState) (now jid : Nat), QueueSorted q →
        (get_next_job q now).1 = some jid →
        eligible_job q.job_store now jid = true ∧
        ∀ j' ∈ q.queue, eligible_job q.job_store now j' = true →
          lexGe (sortKey q.job_store jid) (sortKey q.job_store j') = true) ∧
    ((get_next_job queueABC 5).1 = some jobB.id ∧
     (get_next_job (get_next_job queueABC 5).2 5).1 = some jobA.id ∧
     (get_next_job (get_next_job (get_next_job queueABC 5).2 5).2 5).1 = some jobC.id ∧
     (get_next_job (get_next_job (get_next_job (get_next_job queueABC 5).2 5).2 5).2 5).1
       = none) := by
  have hadd : ∀ (q : QueueState) (job : NotificationJob), QueueSorted (add_job q job) := by
    intro q job
    exact py_sort_desc_pairwise _ _
  refine ⟨hadd, ?_, ?_, ?_, by decide⟩
  · intro q now hq
    have hsub := pop_first_eligible_sublist q.job_store now q.queue
    exact List.Pairwise.sublist hsub hq
  · intro q jid delay now hq
    unfold requeue_job
    cases hj : dictGet q.job_store jid with
    | none => exact hq
    | some j =>
        simp only []
        by_cases hcap : j.attempts + 1 < j.max_attempts
        · rw [if_pos hcap]
          exact hadd _ _
        · rw [if_neg hcap]
          have hkey := sortKey_set_same_key q.job_store jid j
            { j with attempts := j.attempts + 1, scheduled_at := now + delay } hj rfl rfl
          refine List.Pairwise.imp_of_mem ?_ hq
          intro a b _ _ hab
          rw [hkey a, hkey b]
          exact hab
  · intro q now jid hq h
    exact pop_first_eligible_spec q.job_store now q.queue hq jid h

/-- Witness for C1 (amended): the returned job on the two-job fixture is
eligible (hypotheses discharged at `queueLate`, time 5, job id 0). -/
theorem C1_amended_queue_ordering_witness :
    eligible_job queueLate.job_store 5 0 = true :=
  (C1_amended_queue_ordering.2.2.2.1 queueLate 5 0
    (show QueueSorted queueLate from C1_amended_queue_ordering.1 (add_job empty_queue jobLate) jobEarly)
    (by decide)).1

/-! ## C10: availability rendering is total -/

/-- C10: in both renderers the availability percentage is computed exactly
when both `availability_remains` and `availability_total` are present and
non-zero (Python truthiness); whenever it is computed the divisor is
non-zero; a gift with `availability_remains = 0`, `availability_total = 0`
or a missing field renders with the availability line omitted (`none`)
instead of dividing; and `_generate_message`'s availability component and
`format_new_gift`'s availability component are the same computation. -/
theorem C10_availability_total (g : Gift) :
    (∀ r t p, availability_info g = some (r, t, p) →
      t ≠ 0 ∧ r ≠ 0 ∧ g.availability_remains = some r ∧ g.availability_total = some t ∧
        p = r * 100 / t) ∧
    (∀ r t, g.availability_remains = some r → g.availability_total = some t →
      r ≠ 0 → t ≠ 0 → availability_info g = some (r, t, r * 100 / t)) ∧
    (g.availability_remains = some 0 → availability_info g = none) ∧
    (g.availability_total = some 0 → availability_info g = none) ∧
    (g.availability_remains = none → availability_info g = none) ∧
    (g.availability_total = none → availability_info g = none) ∧
    format_new_gift_availability g = availability_info g := by
  cases hr : g.availability_remains with
  | none =>
      simp [availability_info, format_new_gift_availability, truthyNat, hr]
  | some r0 =>
      cases ht : g.availability_total with
      | none =>
          simp [availability_info, format_new_gift_availability, truthyNat, hr, ht]
      | some t0 =>
          by_cases hr0 : r0 = 0
          · subst hr0
            simp [availability_info, format_new_gift_availability, truthyNat, hr, ht]
          · by_cases ht0 : t0 = 0
            · subst ht0
              simp [availability_info, format_new_gift_availability, truthyNat, hr, ht, hr0]
            · simp only [availability_info, format_new_gift_availability, truthyNat, hr, ht,
                decide_eq_true_eq, Option.getD_some, if_pos, hr0, ht0, not_false_iff,
                Bool.and_self, decide_not]
              refine ⟨?_, ?_, ?_, ?_, ?_, ?_, trivial⟩
              · intro r t p hsome
                obtain ⟨rfl, rfl, rfl⟩ : r0 = r ∧ t0 = t ∧ r0 * 100 / t0 = p := by
                  simpa using hsome
                exact ⟨ht0, hr0, rfl, rfl, rfl⟩
              · intro r t hr' ht' _ _
                obtain rfl : r = r0 := by simpa using hr'.symm
                obtain rfl : t = t0 := by simpa using ht'.symm
                rfl
              · intro h; exact absurd (by simpa using h) hr0
              · intro h; exact absurd (by simpa using h) ht0
              · intro h; simp at h
              · intro h; simp at h

/-- Witness for C10: on the fixture gift (10 of 100 remaining) the
percentage line is computed with non-zero divisor 100. -/
theorem C10_availability_total_witness :
    (100 : Nat) ≠ 0 ∧ (10 : Nat) ≠ 0 ∧ giftGolden.availability_remains = some 10 ∧
      giftGolden.availability_total = some 100 ∧ (10 : Nat) = 10 * 100 / 100 :=
  (C10_availability_total giftGolden).1 10 100 10 (by decide)

/-! ## C7: diffing the same snapshot twice -/

/-- C7: processing the same snapshot twice in a row emits zero events the
second time and leaves the monitor state (hash and known-gift table)
unchanged; and whenever the snapshot's change-token already equals
`last_hash`, diffing is skipped entirely and no events are emitted. -/
theorem C7_diff_idempotent (st : MonitorState) (gd : GiftsData) :
    check_for_new_gifts (check_for_new_gifts st (some gd)).1 (some gd) =
      ((check_for_new_gifts st (some gd)).1, [], []) ∧
    (st.last_hash = gd.hash → check_for_new_gifts st (some gd) = (st, [], [])) := by
  constructor
  · by_cases h : gd.hash = st.last_hash
    · simp [check_for_new_gifts, h]
    · simp [check_for_new_gifts, h]
  · intro h
    simp [check_for_new_gifts, h]

/-- Witness for C7: the token-equality early-out on a concrete monitor
state whose `last_hash` already equals the snapshot hash. -/
theorem C7_diff_idempotent_witness :
    check_for_new_gifts smallMonitor (some smallSnap) = (smallMonitor, [], []) :=
  (C7_diff_idempotent smallMonitor smallSnap).2 rfl

/-! ## C6: the diff of one snapshot against the known-gift table -/

theorem processGifts_cons_none (known : List (Nat × Gift)) (g : Gift) (gs : List Gift)
    (hd : dictGet known g.id = none) :
    processGifts known (g :: gs) =
      ((processGifts (dictSet known g.id g) gs).1,
       g :: (processGifts (dictSet known g.id g) gs).2.1,
       (processGifts (dictSet known g.id g) gs).2.2) := by
  simp only [processGifts]
  rw [hd]

theorem processGifts_cons_changed (known : List (Nat × Gift)) (g old : Gift) (gs : List Gift)
    (hd : dictGet known g.id = some old) (hc : gift_changed old g = true) :
    processGifts known (g :: gs) =
      ((processGifts (dictSet known g.id g) gs).1,
       (processGifts (dictSet known g.id g) gs).2.1,
       g :: (processGifts (dictSet known g.id g) gs).2.2) := by
  simp only [processGifts]
  rw [hd]
  simp [hc]

theorem processGifts_cons_unchanged (known : List (Nat × Gift)) (g old : Gift) (gs : List Gift)
    (hd : dictGet known g.id = some old) (hc : gift_changed old g = false) :
    processGifts known (g :: gs) = processGifts known gs := by
  simp only [processGifts]
  rw [hd]
  simp [hc]

theorem processGifts_new_mem (gs : List Gift) :
    ∀ (known : List (Nat × Gift)) (e : Gift), e ∈ (processGifts known gs).2.1 → e ∈ gs := by
  induction gs with
  | nil => intro known e h; simp [processGifts] at h
  | cons g gs ih =>
      intro known e h
      cases hd : dictGet known g.id with
      | none =>
          rw [processGifts_cons_none known g gs hd] at h
          rcases List.mem_cons.mp h with rfl | h'
          · exact List.mem_cons_self _ _
          · exact List.mem_cons_of_mem _ (ih _ _ h')
      | some old =>
          by_cases hc : gift_changed old g = true
          · rw [processGifts_cons_changed known g old gs hd hc] at h
            exact List.mem_cons_of_mem _ (ih _ _ h)
          · rw [processGifts_cons_unchanged known g old gs hd
              (Bool.not_eq_true _ ▸ hc)] at h
            exact List.mem_cons_of_mem _ (ih _ _ h)

theorem processGifts_upd_mem (gs : List Gift) :
    ∀ (known : List (Nat × Gift)) (e : Gift), e ∈ (processGifts known gs).2.2 → e ∈ gs := by
  induction gs with
  | nil => intro known e h; simp [processGifts] at h
  | cons g gs ih =>
      intro known e h
      cases hd : dictGet known g.id with
      | none =>
          rw [processGifts_cons_none known g gs hd] at h
          exact List.mem_cons_of_mem _ (ih _ _ h)
      | some old =>
          by_cases hc : gift_changed old g = true
          · rw [processGifts_cons_changed known g old gs hd hc] at h
            rcases List.mem_cons.mp h with rfl | h'
            · exact List.mem_cons_self _ _
            · exact List.mem_cons_of_mem _ (ih _ _ h')
          · rw [processGifts_cons_unchanged known g old gs hd
              (Bool.not_eq_true _ ▸ hc)] at h
            exact List.mem_cons_of_mem _ (ih _ _ h)

theorem processGifts_lookup_stable (gs : List Gift) :
    ∀ (known : List (Nat × Gift)) (i : Nat), i ∉ gs.map (fun g => g.id) →
      dictGet (processGifts known gs).1 i = dictGet known i := by
  induction gs with
  | nil => intro known i _; simp [processGifts]
  | cons g gs ih =>
      intro known i hi
      have hig : g.id ≠ i := by
        intro h; exact hi (by simp [← h])
      have hi' : i ∉ gs.map (fun g => g.id) := by
        intro h; exact hi (by simp [h])
      cases hd : dictGet known g.id with
      | none =>
          rw [processGifts_cons_none known g gs hd]
          rw [ih _ i hi', dictGet_dictSet]
          simp [hig]
      | some old =>
          by_cases hc : gift_changed old g = true
          · rw [processGifts_cons_changed known g old gs hd hc]
            rw [ih _ i hi', dictGet_dictSet]
            simp [hig]
          · rw [processGifts_cons_unchanged known g old gs hd (Bool.not_eq_true _ ▸ hc)]
            exact ih _ i hi'

theorem filter_id_length_zero (l : List Gift) (i : Nat) (h : ∀ e ∈ l, e.id ≠ i) :
    (l.filter (fun e => decide (e.id = i))).length = 0 := by
  rw [List.length_eq_zero, List.filter_eq_nil_iff]
  intro a ha
  simpa using h a ha

/-- Per-gift specification of one diff pass, assuming snapshot ids are
pairwise distinct. -/
theorem processGifts_spec (gs : List Gift) :
    ∀ known : List (Nat × Gift), (gs.map (fun g => g.id)).Nodup →
      ∀ g ∈ gs,
        (dictGet known g.id = none →
          ((processGifts known gs).2.1.filter (fun e => decide (e.id = g.id))).length = 1 ∧
          ((processGifts known gs).2.2.filter (fun e => decide (e.id = g.id))).length = 0 ∧
          dictGet (processGifts known gs).1 g.id = some g) ∧
        (∀ old, dictGet known g.id = some old →
          (gift_changed old g = true →
            ((processGifts known gs).2.1.filter (fun e => decide (e.id = g.id))).length = 0 ∧
            ((processGifts known gs).2.2.filter (fun e => decide (e.id = g.id))).length = 1 ∧
            dictGet (processGifts known gs).1 g.id = some g) ∧
          (gift_changed old g = false →
            ((processGifts known gs).2.1.filter (fun e => decide (e.id = g.id))).length = 0 ∧
            ((processGifts known gs).2.2.filter (fun e => decide (e.id = g.id))).length = 0 ∧
            dictGet (processGifts known gs).1 g.id = some old)) := by
  induction gs with
  | nil => intro known _ g hg; exact absurd hg (List.not_mem_nil g)
  | cons g0 gs ih =>
      intro known hnd g hg
      have hnd0 : g0.id ∉ gs.map (fun g => g.id) := (List.nodup_cons.mp (by simpa using hnd)).1
      have hndt : (gs.map (fun g => g.id)).Nodup := (List.nodup_cons.mp (by simpa using hnd)).2
      have tail_new_zero : ∀ known' : List (Nat × Gift),
          ((processGifts known' gs).2.1.filter (fun e => decide (e.id = g0.id))).length = 0 := by
        intro known'
        refine filter_id_length_zero _ _ ?_
        intro e he heq
        exact hnd0 (heq ▸ List.mem_map_of_mem _ (processGifts_new_mem gs known' e he))
      have tail_upd_zero : ∀ known' : List (Nat × Gift),
          ((processGifts known' gs).2.2.filter (fun e => decide (e.id = g0.id))).length = 0 := by
        intro known'
        refine filter_id_length_zero _ _ ?_
        intro e he heq
        exact hnd0 (heq ▸ List.mem_map_of_mem _ (processGifts_upd_mem gs known' e he))
      rcases List.mem_cons.mp hg with rfl | hgt
      · -- g is the head g0
        cases hd : dictGet known g.id with
        | none =>
            rw [processGifts_cons_none known g gs hd]
            constructor
            · intro _
              refine ⟨?_, ?_, ?_⟩
              · simp [List.filter_cons, tail_new_zero]
              · exact tail_upd_zero _
              · rw [processGifts_lookup_stable gs _ g.id hnd0, dictGet_dictSet]
                simp
            · intro old hold
              exact absurd hold (by simp)
        | some old0 =>
            by_cases hc : gift_changed old0 g = true
            · rw [processGifts_cons_changed known g old0 gs hd hc]
              constructor
              · intro hnone; exact absurd hnone (by simp)
              · intro old hold
                obtain rfl : old0 = old := by simpa using hold
                constructor
                · intro _
                  refine ⟨tail_new_zero _, ?_, ?_⟩
                  · simp [List.filter_cons, tail_upd_zero]
                  · rw [processGifts_lookup_stable gs _ g.id hnd0, dictGet_dictSet]
                    simp
                · intro hcf; rw [hc] at hcf; exact absurd hcf (by simp)
            · have hcf : gift_changed old0 g = false := Bool.not_eq_true _ ▸ hc
              rw [processGifts_cons_unchanged known g old0 gs hd hcf]
              constructor
              · intro hnone; exact absurd hnone (by simp)
              · intro old hold
                obtain rfl : old0 = old := by simpa using hold
                constructor
                · intro hct; rw [hcf] at hct; exact absurd hct (by simp)
                · intro _
                  refine ⟨tail_new_zero _, tail_upd_zero _, ?_⟩
                  rw [processGifts_lookup_stable gs _ g.id hnd0]
                  exact hd
      · -- g is in the tail gs
        have hne : g0.id ≠ g.id := by
          intro h
          exact hnd0 (h ▸ List.mem_map_of_mem _ hgt)
        have hfilter_g0 : ∀ l : List Gift,
            ((g0 :: l).filter (fun e => decide (e.id = g.id))).length =
              (l.filter (fun e => decide (e.id = g.id))).length := by
          intro l
          simp only [List.filter_cons, decide_eq_true_eq]
          rw [if_neg hne]
        cases hd : dictGet known g0.id with
        | none =>
            rw [processGifts_cons_none known g0 gs hd]
            have hlook : dictGet (dictSet known g0.id g0) g.id = dictGet known g.id := by
              rw [dictGet_dictSet]; simp [hne]
            have := ih (dictSet known g0.id g0) hndt g hgt
            rw [hlook] at this
            refine ⟨?_, ?_⟩
            · intro hnone
              obtain ⟨h1, h2, h3⟩ := this.1 hnone
              exact ⟨by rw [hfilter_g0]; exact h1, h2, h3⟩
            · intro old hold
              obtain ⟨hcase1, hcase2⟩ := this.2 old hold
              constructor
              · intro hct
                obtain ⟨h1, h2, h3⟩ := hcase1 hct
                exact ⟨by rw [hfilter_g0]; exact h1, h2, h3⟩
              · intro hcf
                obtain ⟨h1, h2, h3⟩ := hcase2 hcf
                exact ⟨by rw [hfilter_g0]; exact h1, h2, h3⟩
        | some old0 =>
            by_cases hc : gift_changed old0 g0 = true
            · rw [processGifts_cons_changed known g0 old0 gs hd hc]
              have hlook : dictGet (dictSet known g0.id g0) g.id = dictGet known g.id := by
                rw [dictGet_dictSet]; simp [hne]
              have := ih (dictSet known g0.id g0) hndt g hgt
              rw [hlook] at this
              refine ⟨?_, ?_⟩
              · intro hnone
                obtain ⟨h1, h2, h3⟩ := this.1 hnone
                exact ⟨h1, by rw [hfilter_g0]; exact h2, h3⟩
              · intro old hold
                obtain ⟨hcase1, hcase2⟩ := this.2 old hold
                constructor
                · intro hct
                  obtain ⟨h1, h2, h3⟩ := hcase1 hct
                  exact ⟨h1, by rw [hfilter_g0]; exact h2, h3⟩
                · intro hcf
                  obtain ⟨h1, h2, h3⟩ := hcase2 hcf
                  exact ⟨h1, by rw [hfilter_g0]; exact h2, h3⟩
            · rw [processGifts_cons_unchanged known g0 old0 gs hd (Bool.not_eq_true _ ▸ hc)]
              exact ih known hndt g hgt

/-- C6: on a snapshot with a differing change-token (and pairwise-distinct
item ids), the diff emits exactly one `New` event for each id absent from
the known-gift map and inserts it; exactly one `Updated` event for each
known id whose {sold_out, availability_remains, stars} differ from the
stored record, replacing the record (and a `sold_out` flip in either
direction counts as such a difference); no event for a known id whose
tracked fields are unchanged (the stored record is kept); and every emitted
event is an item of the snapshot. -/
theorem C6_diff_events (st : MonitorState) (gd : GiftsData)
    (hhash : gd.hash ≠ st.last_hash)
    (hnodup : (gd.gifts.map (fun g => g.id)).Nodup) :
    (∀ g ∈ gd.gifts,
      (dictGet st.known_gifts g.id = none →
        ((check_for_new_gifts st (some gd)).2.1.filter
            (fun e => decide (e.id = g.id))).length = 1 ∧
        ((check_for_new_gifts st (some gd)).2.2.filter
            (fun e => decide (e.id = g.id))).length = 0 ∧
        dictGet (check_for_new_gifts st (some gd)).1.known_gifts g.id = some g) ∧
      (∀ old, dictGet st.known_gifts g.id = some old →
        (gift_changed old g = true →
          ((check_for_new_gifts st (some gd)).2.1.filter
              (fun e => decide (e.id = g.id))).length = 0 ∧
          ((check_for_new_gifts st (some gd)).2.2.filter
              (fun e => decide (e.id = g.id))).length = 1 ∧
          dictGet (check_for_new_gifts st (some gd)).1.known_gifts g.id = some g) ∧
        (gift_changed old g = false →
          ((check_for_new_gifts st (some gd)).2.1.filter
              (fun e => decide (e.id = g.id))).length = 0 ∧
          ((check_for_new_gifts st (some gd)).2.2.filter
              (fun e => decide (e.id = g.id))).length = 0 ∧
          dictGet (check_for_new_gifts st (some gd)).1.known_gifts g.id = some old))) ∧
    (∀ e, e ∈ (check_for_new_gifts st (some gd)).2.1 → e ∈ gd.gifts) ∧
    (∀ e, e ∈ (check_for_new_gifts st (some gd)).2.2 → e ∈ gd.gifts) ∧
    (∀ old g', old.sold_out ≠ g'.sold_out → gift_changed old g' = true) := by
  have heq : check_for_new_gifts st (some gd) =
      ({ last_hash := gd.hash, known_gifts := (processGifts st.known_gifts gd.gifts).1 },
       (processGifts st.known_gifts gd.gifts).2.1,
       (processGifts st.known_gifts gd.gifts).2.2) := by
    simp [check_for_new_gifts, hhash]
  refine ⟨?_, ?_, ?_, ?_⟩
  · intro g hg
    rw [heq]
    exact processGifts_spec gd.gifts st.known_gifts hnodup g hg
  · intro e he
    rw [heq] at he
    exact processGifts_new_mem gd.gifts st.known_gifts e he
  · intro e he
    rw [heq] at he
    exact processGifts_upd_mem gd.gifts st.known_gifts e he
  · intro old g' h
    simp [gift_changed, h]

/-- Witness for C6: a fresh id in a token-changed snapshot produces exactly
one `New` event and lands in the known-gift table. -/
theorem C6_diff_events_witness :
    ((check_for_new_gifts smallMonitor (some snapNew)).2.1.filter
        (fun e => decide (e.id = giftGolden.id))).length = 1 ∧
    ((check_for_new_gifts smallMonitor (some snapNew)).2.2.filter
        (fun e => decide (e.id = giftGolden.id))).length = 0 ∧
    dictGet (check_for_new_gifts smallMonitor (some snapNew)).1.known_gifts giftGolden.id =
      some giftGolden :=
  ((C6_diff_events smallMonitor snapNew (by decide) (by decide)).1 giftGolden
    (List.mem_cons_self _ _)).1 rfl

/-! ## Dispatcher scaffolding: one `_process_queue` step under the usual
hypotheses (not processing, rate limit passes, an eligible job exists) -/

theorem process_queue_step_eq (st : EngineState) (send : NotificationJob → SendResult)
    (now jid : Nat) (j : NotificationJob) (q' : List Nat)
    (hproc : st.queue.processing = false)
    (hrate : (st.sent_messages.filter (fun msg => decide (now - msg < 60))).length <
      st.messages_per_minute)
    (hpop : pop_first_eligible st.queue.job_store now st.queue.queue = (some jid, q'))
    (hj : dictGet st.queue.job_store jid = some j) :
    process_queue st send now =
      (let st1 : EngineState :=
        { st with
            sent_messages := st.sent_messages.filter (fun msg => decide (now - msg < 60)),
            queue := { st.queue with processing := true, queue := q' } }
       let sr := send_notification st1 jid (send j) now
       let res :=
         if sr.1 then
           record_notification
             { sr.2 with queue := { sr.2.queue with total_sent := sr.2.queue.total_sent + 1 } }
             jid now
         else { sr.2 with queue := requeue_job sr.2.queue jid 60 now }
       { res with queue := { res.queue with processing := false } }) := by
  simp only [process_queue, check_rate_limits, get_next_job, hproc, hpop, hj, hrate,
    decide_True, Bool.not_true, Bool.false_eq_true, if_false, Bool.ite_eq_true_distrib]

/-! ## C2: blocked recipient -/

/-- C2, counterexample to "job discarded with no further retries": after a
blocked send on `engine7` the subscriber is indeed disabled in the external
store, but the job is *requeued* — it is still in the queue with
`attempts = 1 < max_attempts = 3`, scheduled for `now + 60`, and is again
eligible (hence retried) at time 60. -/
theorem C2_counterexample :
    (process_queue engine7 send_blocked_fn 0).queue.queue = [0] ∧
    (dictGet (process_queue engine7 send_blocked_fn 0).queue.job_store 0).map
      (fun j => (j.attempts, j.scheduled_at, j.max_attempts)) = some (1, 60, 3) ∧
    eligible_job (process_queue engine7 send_blocked_fn 0).queue.job_store 60 0 = true ∧
    (process_queue engine7 send_blocked_fn 0).db.map
      (fun u => (u.user_id, u.notifications_enabled)) = [(7, false)] := by
  decide

/-- C2 (amended): on a blocked/forbidden recipient the dispatcher flips the
subscriber's `notifications_enabled` to false in the external store, but it
does *not* discard the job: `_send_notification` returns failure and
`_process_queue` requeues the job with the standard 60-second backoff
(attempts incremented once), re-inserting it while attempts remain below
the cap; no send is counted. -/
theorem C2_amended_blocked_handling (st : EngineState) (send : NotificationJob → SendResult)
    (now jid : Nat) (j : NotificationJob) (q' : List Nat)
    (hproc : st.queue.processing = false)
    (hrate : (st.sent_messages.filter (fun msg => decide (now - msg < 60))).length <
      st.messages_per_minute)
    (hpop : pop_first_eligible st.queue.job_store now st.queue.queue = (some jid, q'))
    (hj : dictGet st.queue.job_store jid = some j)
    (hid : j.id = jid)
    (hsend : send j = SendResult.blocked) :
    (∀ u ∈ (process_queue st send now).db, u.user_id = j.user_id →
        u.notifications_enabled = false) ∧
    dictGet (process_queue st send now).queue.job_store jid =
      some { j with attempts := j.attempts + 1, scheduled_at := now + 60 } ∧
    (j.attempts + 1 < j.max_attempts → jid ∈ (process_queue st send now).queue.queue) ∧
    (process_queue st send now).queue.total_sent = st.queue.total_sent := by
  rw [process_queue_step_eq st send now jid j q' hproc hrate hpop hj]
  by_cases hcap : j.attempts + 1 < j.max_attempts
  · simp only [hsend, send_notification, mark_user_inactive, requeue_job, add_job, hj, hid,
      Bool.false_eq_true, if_false, if_pos hcap]
    refine ⟨?_, ?_, ?_, ?_⟩
    · intro u hu hid'
      simp only [List.mem_map] at hu
      obtain ⟨u0, _, rfl⟩ := hu
      by_cases h : u0.user_id = j.user_id
      · simp [h]
      · simp only [if_neg h] at hid' ⊢
        exact absurd hid' h
    · rw [dictGet_dictSet]
      simp [dictGet_dictSet]
    · intro _
      rw [mem_py_sort_desc]
      simp
    · trivial
  · simp only [hsend, send_notification, mark_user_inactive, requeue_job, add_job, hj, hid,
      Bool.false_eq_true, if_false, if_neg hcap]
    refine ⟨?_, ?_, ?_, ?_⟩
    · intro u hu hid'
      simp only [List.mem_map] at hu
      obtain ⟨u0, _, rfl⟩ := hu
      by_cases h : u0.user_id = j.user_id
      · simp [h]
      · simp only [if_neg h] at hid' ⊢
        exact absurd hid' h
    · rw [dictGet_dictSet]
      simp
    · intro h
      exact absurd h hcap
    · trivial

/-- Witness for C2 (amended): the hypotheses discharged on `engine7` with a
blocked send at time 0. -/
theorem C2_amended_blocked_handling_witness :
    dictGet (process_queue engine7 send_blocked_fn 0).queue.job_store 0 =
      some { mk_job 0 7 NotificationPriority.normal 0 0 0 3 with
        attempts := 0 + 1, scheduled_at := 0 + 60 } :=
  (C2_amended_blocked_handling engine7 send_blocked_fn 0 0
    (mk_job 0 7 NotificationPriority.normal 0 0 0 3) [] rfl (by decide) (by decide) (by decide)
    rfl rfl).2.1

/-! ## C3: platform-imposed slowdown (`FloodWait`) -/

/-- C3, counterexample: on `engine7two` the first step hits
`FloodWait(100)` on job 0.  The job is *not* rescheduled by exactly 100
seconds with one attempt increment — `requeue_job` runs twice (once inside
`_send_notification` with delay 100, once more from `_process_queue`'s
generic failure path with delay 60), leaving `attempts = 2` and
`scheduled_at = 60`.  And there is no global cooldown: the very next step,
one second later, sends job 1 successfully, although 1 < 100. -/
theorem C3_counterexample :
    (dictGet (process_queue engine7two send_flood_then_ok 0).queue.job_store 0).map
      (fun j => (j.attempts, j.scheduled_at)) = some (2, 60) ∧
    (process_queue engine7two send_flood_then_ok 0).queue.total_sent = 0 ∧
    (process_queue (process_queue engine7two send_flood_then_ok 0)
        send_flood_then_ok 1).queue.total_sent = 1 ∧
    (1 : Nat) < 100 := by
  decide

/-- C3 (amended): on `FloodWait n` the job is requeued twice — once by the
`FloodWait` handler with delay `n` and once more by `_process_queue`'s
generic failure path with the default 60-second delay — so its attempts
rise by 2, its final `scheduled_at` is `now + 60` (the flood delay is
overwritten), its id is re-inserted once per requeue that still has
attempts below the cap, `total_failed` is bumped once per requeue that has
exhausted them, and no send is recorded.  The dispatcher has no global
cooldown state: any later step whose next job's send succeeds increments
`total_sent`, regardless of earlier flood waits. -/
theorem C3_amended_flood_wait :
    (∀ (st : EngineState) (send : NotificationJob → SendResult) (now jid n : Nat)
        (j : NotificationJob) (q' : List Nat),
      st.queue.processing = false →
      (st.sent_messages.filter (fun msg => decide (now - msg < 60))).length <
        st.messages_per_minute →
      pop_first_eligible st.queue.job_store now st.queue.queue = (some jid, q') →
      dictGet st.queue.job_store jid = some j →
      j.id = jid →
      send j = SendResult.flood_wait n →
      dictGet (process_queue st send now).queue.job_store jid =
        some { j with attempts := j.attempts + 2, scheduled_at := now + 60 } ∧
      (process_queue st send now).queue.total_sent = st.queue.total_sent ∧
      (process_queue st send now).sent_messages =
        st.sent_messages.filter (fun msg => decide (now - msg < 60)) ∧
      (process_queue st send now).queue.queue.count jid =
        q'.count jid + (if j.attempts + 1 < j.max_attempts then 1 else 0)
          + (if j.attempts + 2 < j.max_attempts then 1 else 0) ∧
      (process_queue st send now).queue.total_failed =
        st.queue.total_failed + (if j.attempts + 1 < j.max_attempts then 0 else 1)
          + (if j.attempts + 2 < j.max_attempts then 0 else 1)) ∧
    (∀ (st : EngineState) (send : NotificationJob → SendResult) (now jid : Nat)
        (j : NotificationJob) (q' : List Nat),
      st.queue.processing = false →
      (st.sent_messages.filter (fun msg => decide (now - msg < 60))).length <
        st.messages_per_minute →
      pop_first_eligible st.queue.job_store now st.queue.queue = (some jid, q') →
      dictGet st.queue.job_store jid = some j →
      send j = SendResult.ok →
      (process_queue st send now).queue.total_sent = st.queue.total_sent + 1) := by
  constructor
  · intro st send now jid n j q' hproc hrate hpop hj hid hsend
    rw [process_queue_step_eq st send now jid j q' hproc hrate hpop hj]
    by_cases hcap1 : j.attempts + 1 < j.max_attempts
    · by_cases hcap2 : j.attempts + 2 < j.max_attempts
      · simp only [hsend, send_notification, requeue_job, add_job, hj, hid, dictGet_dictSet,
          Bool.false_eq_true, if_false, if_pos hcap1, if_pos hcap2]
        refine ⟨?_, ?_, ?_, ?_, ?_⟩ <;>
          simp [dictGet_dictSet, count_py_sort_desc, List.count_append, hcap1, hcap2]
      · simp only [hsend, send_notification, requeue_job, add_job, hj, hid, dictGet_dictSet,
          Bool.false_eq_true, if_false, if_pos hcap1, if_neg hcap2]
        refine ⟨?_, ?_, ?_, ?_, ?_⟩ <;>
          simp [dictGet_dictSet, count_py_sort_desc, List.count_append, hcap1, hcap2]
    · have hcap2 : ¬ j.attempts + 2 < j.max_attempts := by omega
      simp only [hsend, send_notification, requeue_job, add_job, hj, hid, dictGet_dictSet,
        Bool.false_eq_true, if_false, if_neg hcap1, if_neg hcap2]
      refine ⟨?_, ?_, ?_, ?_, ?_⟩ <;>
        simp [dictGet_dictSet, count_py_sort_desc, List.count_append, hcap1, hcap2]
  · intro st send now jid j q' hproc hrate hpop hj hsend
    rw [process_queue_step_eq st send now jid j q' hproc hrate hpop hj]
    simp [hsend, send_notification, record_notification, hj]

/-- Witness for C3 (amended): hypotheses discharged on `engine7` with a
`FloodWait(100)` outcome at time 0. -/
theorem C3_amended_flood_wait_witness :
    dictGet (process_queue engine7 (fun _ => SendResult.flood_wait 100) 0).queue.job_store 0 =
      some { mk_job 0 7 NotificationPriority.normal 0 0 0 3 with
        attempts := 0 + 2, scheduled_at := 0 + 60 } :=
  (C3_amended_flood_wait.1 engine7 (fun _ => SendResult.flood_wait 100) 0 0 100
    (mk_job 0 7 NotificationPriority.normal 0 0 0 3) [] rfl (by decide) (by decide) (by decide)
    rfl rfl).1

/-! ## C4: retry exhaustion -/

/-- C4 (code bug, demonstrated): the invariant "attempts < max_attempts
while the job remains in the queue", removal on exhaustion, and
exactly-once counting of permanent failures are all broken by the
`FloodWait` path, which calls `requeue_job` twice per failure (once in
`_send_notification`, once more from `_process_queue`'s generic failure
branch).  Starting from one job with `max_attempts = 3`, two delivery
attempts that both fail with `FloodWait(5)` leave: `total_failed = 2` (the
job is counted twice), a stale queue entry for the job (not removed), and
the shared job object at `attempts = 4 ≥ max_attempts = 3`; `get_next_job`
never returns it again, so the entry is retained forever. -/
theorem C4_flood_double_requeue_bug :
    (process_queue (process_queue engine7 send_flood5_fn 0) send_flood5_fn 60).queue.total_failed
        = 2 ∧
    (process_queue (process_queue engine7 send_flood5_fn 0) send_flood5_fn 60).queue.queue
        = [0] ∧
    (dictGet (process_queue (process_queue engine7 send_flood5_fn 0)
        send_flood5_fn 60).queue.job_store 0).map
      (fun j => (j.attempts, j.max_attempts)) = some (4, 3) ∧
    (get_next_job (process_queue (process_queue engine7 send_flood5_fn 0)
        send_flood5_fn 60).queue 1000000).1 = none := by
  decide

/-! ## C8: the sliding 60-second rate window -/

/-- Every dispatcher step leaves `sent_messages` either untouched
(`processing` was already set), pruned to the 60-second window, or pruned
with `now` appended — and the append happens only when the pruned window
was strictly below the cap. -/
theorem process_queue_sent_cases (st : EngineState) (send : NotificationJob → SendResult)
    (now : Nat) :
    (process_queue st send now).sent_messages = st.sent_messages ∨
    (process_queue st send now).sent_messages =
      st.sent_messages.filter (fun msg => decide (now - msg < 60)) ∨
    ((process_queue st send now).sent_messages =
        st.sent_messages.filter (fun msg => decide (now - msg < 60)) ++ [now] ∧
      (st.sent_messages.filter (fun msg => decide (now - msg < 60))).length <
        st.messages_per_minute) := by
  by_cases hproc : st.queue.processing = true
  · simp [process_queue, hproc]
  · simp only [Bool.not_eq_true] at hproc
    by_cases hrate : (st.sent_messages.filter (fun msg => decide (now - msg < 60))).length <
        st.messages_per_minute
    · rcases hpop : pop_first_eligible st.queue.job_store now st.queue.queue with ⟨o, q'⟩
      cases o with
      | none =>
          refine Or.inr (Or.inl ?_)
          simp [process_queue, check_rate_limits, get_next_job, hproc, hrate, hpop]
      | some jid =>
          cases hj : dictGet st.queue.job_store jid with
          | none =>
              refine Or.inr (Or.inl ?_)
              simp [process_queue, check_rate_limits, get_next_job, hproc, hrate, hpop, hj]
          | some job =>
              rw [process_queue_step_eq st send now jid job q' hproc hrate hpop hj]
              cases hsend : send job with
              | ok =>
                  refine Or.inr (Or.inr ⟨?_, hrate⟩)
                  simp [hsend, send_notification, record_notification, requeue_job, add_job, hj]
              | flood_wait n =>
                  refine Or.inr (Or.inl ?_)
                  simp only [hsend, send_notification, hj]
                  cases hreq : dictGet (dictSet st.queue.job_store jid
                      { job with scheduled_at := now + n }) jid with
                  | none => simp [requeue_job, hreq]
                  | some j2 =>
                      by_cases hcap : j2.attempts + 1 < j2.max_attempts
                      · simp [requeue_job, add_job, hreq, hcap, dictGet_dictSet]
                      · simp [requeue_job, add_job, hreq, hcap, dictGet_dictSet]
              | blocked =>
                  refine Or.inr (Or.inl ?_)
                  simp only [hsend, send_notification, hj, mark_user_inactive]
                  simp [requeue_job, add_job, hj]
              | other_error =>
                  refine Or.inr (Or.inl ?_)
                  simp only [hsend, send_notification]
                  simp [requeue_job, add_job, hj]
    · refine Or.inr (Or.inl ?_)
      simp [process_queue, check_rate_limits, hproc, hrate]

/-- Filtering the 60-second window is idempotent. -/
theorem recent_sends_filter_idem (msgs : List Nat) (now : Nat) :
    recent_sends (msgs.filter (fun msg => decide (now - msg < 60))) now =
      recent_sends msgs now := by
  unfold recent_sends
  rw [List.filter_filter]
  congr 1
  apply List.filter_congr
  intro a _
  cases h : decide (now - a < 60) <;> simp [h]

/-- C8: the dispatcher never exceeds the configured per-minute cap
(default 20) within the trailing 60-second window.  (a) Once the pruned
window has reached the cap, the step takes no job and performs no send: the
queue, job store and success counter are untouched and `sent_messages` is
merely pruned.  (b) A step at instant `now` keeps the window count at
`now` at or below the cap.  (c) As time advances the window count of a
fixed log only decreases, and (d) a step never records a timestamp beyond
`now` — so the bound persists between steps.  (e) `__init__` sets the cap
to 20. -/
theorem C8_rate_limit_cap :
    (∀ (st : EngineState) (send : NotificationJob → SendResult) (now : Nat),
      st.queue.processing = false →
      st.messages_per_minute ≤ recent_sends st.sent_messages now →
      (process_queue st send now).queue.queue = st.queue.queue ∧
      (process_queue st send now).queue.job_store = st.queue.job_store ∧
      (process_queue st send now).queue.total_sent = st.queue.total_sent ∧
      (process_queue st send now).sent_messages =
        st.sent_messages.filter (fun msg => decide (now - msg < 60))) ∧
    (∀ (st : EngineState) (send : NotificationJob → SendResult) (now : Nat),
      recent_sends st.sent_messages now ≤ st.messages_per_minute →
      recent_sends (process_queue st send now).sent_messages now ≤ st.messages_per_minute) ∧
    (∀ (msgs : List Nat) (now now' : Nat), (∀ t ∈ msgs, t ≤ now) → now ≤ now' →
      recent_sends msgs now' ≤ recent_sends msgs now) ∧
    (∀ (st : EngineState) (send : NotificationJob → SendResult) (now : Nat),
      (∀ t ∈ st.sent_messages, t ≤ now) →
      ∀ t ∈ (process_queue st send now).sent_messages, t ≤ now) ∧
    (∀ db : List User, (init_engine db).messages_per_minute = 20) := by
  have hpruned_le : ∀ (msgs : List Nat) (now : Nat),
      recent_sends (msgs.filter (fun msg => decide (now - msg < 60))) now =
        recent_sends msgs now := recent_sends_filter_idem
  refine ⟨?_, ?_, ?_, ?_, fun _ => rfl⟩
  · intro st send now hproc hcap
    have hrate : ¬ (st.sent_messages.filter (fun msg => decide (now - msg < 60))).length <
        st.messages_per_minute := by
      simp only [recent_sends] at hcap
      omega
    unfold process_queue check_rate_limits
    simp [hproc, hrate]
  · intro st send now hcap
    rcases process_queue_sent_cases st send now with h | h | ⟨h, hlt⟩
    · rw [h]; exact hcap
    · rw [h, hpruned_le]; exact hcap
    · rw [h]
      unfold recent_sends
      rw [List.filter_append, List.length_append, List.filter_filter]
      have h1 : (st.sent_messages.filter
          (fun a => decide (now - a < 60) && decide (now - a < 60))).length =
          (st.sent_messages.filter (fun msg => decide (now - msg < 60))).length := by
        congr 1
        apply List.filter_congr
        intro a _
        cases hq : decide (now - a < 60) <;> simp [hq]
      rw [h1]
      simp
      omega
  · intro msgs now now' hle hnow
    unfold recent_sends
    induction msgs with
    | nil => simp
    | cons t ts ih =>
        have ht : t ≤ now := hle t (List.mem_cons_self _ _)
        have ih' := ih (fun x hx => hle x (List.mem_cons_of_mem _ hx))
        by_cases h1 : now' - t < 60
        · have h2 : now - t < 60 := by omega
          simp [List.filter_cons, h1, h2]
          omega
        · by_cases h2 : now - t < 60 <;> simp [List.filter_cons, h1, h2] <;> omega
  · intro st send now hle t ht
    rcases process_queue_sent_cases st send now with h | h | ⟨h, _⟩
    · rw [h] at ht; exact hle t ht
    · rw [h] at ht
      exact hle t (List.mem_of_mem_filter ht)
    · rw [h] at ht
      rcases List.mem_append.mp ht with h' | h'
      · exact hle t (List.mem_of_mem_filter h')
      · simp at h'
        omega

/-- Witness for C8: hypotheses discharged on a concrete saturated state —
`engine7` with 20 sends already recorded at instant 0 — where the step is a
no-op on the queue. -/
theorem C8_rate_limit_cap_witness :
    (process_queue
        { engine7 with sent_messages := List.replicate 20 0 } send_ok_fn 0).queue.queue =
      ({ engine7 with sent_messages := List.replicate 20 0 } : EngineState).queue.queue :=
  (C8_rate_limit_cap.1 { engine7 with sent_messages := List.replicate 20 0 } send_ok_fn 0
    rfl (by decide)).1

/-! ## C5: when frequency quota is consumed -/

theorem filter_recent_of_pruned (l : List HistoryEntry) (now : Nat) (k : NotificationType) :
    ((l.filter (fun n => decide (now - n.timestamp < 3600))).filter
        (fun e => decide (now - e.timestamp < 3600) && decide (e.ntype = k))).length =
      (l.filter (fun e => decide (now - e.timestamp < 3600) && decide (e.ntype = k))).length := by
  rw [List.filter_filter]
  congr 1
  apply List.filter_congr
  intro a _
  cases h1 : decide (now - a.timestamp < 3600) <;> cases h2 : decide (a.ntype = k) <;>
    simp [h1, h2]

/-- `_check_notification_frequency` only prunes entries already outside the
window, so the in-window count of every (subscriber, kind) is unchanged. -/
theorem check_frequency_recent_count (st : EngineState) (uid0 : Nat)
    (ntype : NotificationType) (now uid : Nat) (k : NotificationType) :
    recent_count (check_notification_frequency st uid0 ntype now).2 uid k now =
      recent_count st uid k now := by
  unfold check_notification_frequency recent_count
  by_cases h : uid0 = uid
  · subst h
    simp only [dictGet_dictSet, if_pos rfl, Option.getD_some]
    exact filter_recent_of_pruned _ now k
  · simp only [dictGet_dictSet, if_neg h]

/-- `should_notify_user` never adds a frequency-window entry. -/
theorem should_notify_recent_count (st : EngineState) (uid0 : Nat) (gift : Gift)
    (ntype : NotificationType) (now uid : Nat) (k : NotificationType) :
    recent_count (should_notify_user st uid0 gift ntype now).2 uid k now =
      recent_count st uid k now := by
  cases hd : dictGet st.filters uid0 with
  | none => simp [should_notify_user, hd]
  | some f =>
      simp only [should_notify_user, hd]
      repeat' split
      all_goals
        first
          | rfl
          | exact check_frequency_recent_count st uid0 ntype now uid k

/-- The whole fan-out (`create_notification`) consumes no frequency quota:
filtering prunes, enqueueing records nothing. -/
theorem create_notification_recent_count (st : EngineState) (user_ids : List Nat)
    (gift : Gift) (ntype : NotificationType) (priority : NotificationPriority)
    (now uid : Nat) (k : NotificationType) :
    recent_count (create_notification st user_ids gift ntype priority now).2 uid k now =
      recent_count st uid k now := by
  unfold create_notification
  cases ht : dictGet st.templates ntype with
  | none => rfl
  | some template =>
      suffices h : ∀ (uids : List Nat) (acc : List Nat × EngineState),
          recent_count
            ((uids.foldl (create_notification_step template gift ntype priority now) acc)).2
            uid k now = recent_count acc.2 uid k now by
        exact h user_ids ([], st)
      intro uids
      induction uids with
      | nil => intro acc; rfl
      | cons u us ih =>
          intro acc
          rw [List.foldl_cons, ih]
          simp only [create_notification_step]
          split
          all_goals exact should_notify_recent_count acc.2 u gift ntype now uid k

/-- A dispatcher step whose transport outcome is never a success leaves the
notification history (hence every frequency window) untouched. -/
theorem process_queue_history_no_ok (st : EngineState) (send : NotificationJob → SendResult)
    (now : Nat) (hfail : ∀ j0, send j0 ≠ SendResult.ok) :
    (process_queue st send now).notification_history = st.notification_history := by
  by_cases hproc : st.queue.processing = true
  · simp [process_queue, hproc]
  · simp only [Bool.not_eq_true] at hproc
    by_cases hrate : (st.sent_messages.filter (fun msg => decide (now - msg < 60))).length <
        st.messages_per_minute
    · rcases hpop : pop_first_eligible st.queue.job_store now st.queue.queue with ⟨o, q'⟩
      cases o with
      | none =>
          simp [process_queue, check_rate_limits, get_next_job, hproc, hrate, hpop]
      | some jid =>
          cases hj : dictGet st.queue.job_store jid with
          | none =>
              simp [process_queue, check_rate_limits, get_next_job, hproc, hrate, hpop, hj]
          | some job =>
              rw [process_queue_step_eq st send now jid job q' hproc hrate hpop hj]
              cases hsend : send job with
              | ok => exact absurd hsend (hfail job)
              | flood_wait n =>
                  simp only [hsend, send_notification, hj]
                  cases hreq : dictGet (dictSet st.queue.job_store jid
                      { job with scheduled_at := now + n }) jid with
                  | none => simp [requeue_job, hreq]
                  | some j2 =>
                      by_cases hcap : j2.attempts + 1 < j2.max_attempts <;>
                        simp [requeue_job, add_job, hreq, hcap, dictGet_dictSet]
              | blocked =>
                  simp only [hsend, send_notification, hj, mark_user_inactive]
                  simp [requeue_job, add_job, hj]
              | other_error =>
                  simp only [hsend, send_notification]
                  simp [requeue_job, add_job, hj]
    · simp [process_queue, check_rate_limits, hproc, hrate]

/-- C5, counterexample to "the provisional entry becomes permanent exactly
when the job is durably enqueued": a fan-out for subscriber 7 durably
enqueues one job (job id 0 returned and in the queue), yet the subscriber's
counted deliveries for the kind in the trailing hour remain 0 — no
frequency-window entry, provisional or permanent, was recorded. -/
theorem C5_counterexample :
    (create_notification (init_engine [user7]) [7] giftGolden NotificationType.new_gift
        NotificationPriority.normal 0).1 = [0] ∧
    (create_notification (init_engine [user7]) [7] giftGolden NotificationType.new_gift
        NotificationPriority.normal 0).2.queue.queue = [0] ∧
    recent_count (create_notification (init_engine [user7]) [7] giftGolden
        NotificationType.new_gift NotificationPriority.normal 0).2 7
      NotificationType.new_gift 0 = 0 := by
  decide

/-- C5 (amended): no frequency-window entry is recorded at filter time or
enqueue time — the whole fan-out leaves every subscriber's in-window count
unchanged.  The entry is recorded exactly at successful delivery: a
dispatcher step that sends job `j` successfully increments the
(subscriber, kind) window count by one, while a step with no successful
send leaves the history untouched.  Hence rejected fan-outs, failed
renders, and queued-but-unsent jobs consume no quota. -/
theorem C5_amended_quota_on_delivery :
    (∀ (st : EngineState) (user_ids : List Nat) (gift : Gift) (ntype : NotificationType)
        (priority : NotificationPriority) (now uid : Nat) (k : NotificationType),
      recent_count (create_notification st user_ids gift ntype priority now).2 uid k now =
        recent_count st uid k now) ∧
    (∀ (st : EngineState) (send : NotificationJob → SendResult) (now jid : Nat)
        (j : NotificationJob) (q' : List Nat),
      st.queue.processing = false →
      (st.sent_messages.filter (fun msg => decide (now - msg < 60))).length <
        st.messages_per_minute →
      pop_first_eligible st.queue.job_store now st.queue.queue = (some jid, q') →
      dictGet st.queue.job_store jid = some j →
      send j = SendResult.ok →
      recent_count (process_queue st send now) j.user_id j.notification_type now =
        recent_count st j.user_id j.notification_type now + 1) ∧
    (∀ (st : EngineState) (send : NotificationJob → SendResult) (now : Nat),
      (∀ j0, send j0 ≠ SendResult.ok) →
      (process_queue st send now).notification_history = st.notification_history) := by
  refine ⟨create_notification_recent_count, ?_, process_queue_history_no_ok⟩
  intro st send now jid j q' hproc hrate hpop hj hsend
  rw [process_queue_step_eq st send now jid j q' hproc hrate hpop hj]
  simp only [hsend, send_notification, record_notification, hj]
  unfold recent_count
  simp [dictGet_dictSet, List.filter_append]

/-- Witness for C5 (amended): a successful send on `engine7` bumps
subscriber 7's `new_gift` window count by one (hypotheses discharged
concretely). -/
theorem C5_amended_quota_on_delivery_witness :
    recent_count (process_queue engine7 send_ok_fn 0) 7 NotificationType.new_gift 0 =
      recent_count engine7 7 NotificationType.new_gift 0 + 1 :=
  C5_amended_quota_on_delivery.2.1 engine7 send_ok_fn 0 0
    (mk_job 0 7 NotificationPriority.normal 0 0 0 3) [] rfl (by decide) (by decide) (by decide)
    rfl

/-! ## C9: users absent from the filter table -/

/-- `should_notify_user` neither reads nor writes anything but the
notification history: filters and queue are untouched. -/
theorem should_notify_preserves (st : EngineState) (uid : Nat) (gift : Gift)
    (ntype : NotificationType) (now : Nat) :
    (should_notify_user st uid gift ntype now).2.filters = st.filters ∧
    (should_notify_user st uid gift ntype now).2.queue = st.queue := by
  cases hd : dictGet st.filters uid with
  | none => simp [should_notify_user, hd]
  | some f =>
      simp only [should_notify_user, hd]
      repeat' split
      all_goals exact ⟨rfl, rfl⟩

/-- A positive filter decision requires a filter entry for the user. -/
theorem should_notify_true_filter (st : EngineState) (uid : Nat) (gift : Gift)
    (ntype : NotificationType) (now : Nat)
    (h : (should_notify_user st uid gift ntype now).1 = true) :
    ∃ f, dictGet st.filters uid = some f := by
  cases hd : dictGet st.filters uid with
  | none =>
      rw [show should_notify_user st uid gift ntype now = (false, st) by
        simp [should_notify_user, hd]] at h
      exact absurd h (by simp)
  | some f => exact ⟨f, rfl⟩

theorem dictGet_load_user_filters_aux (us : List User) :
    ∀ (m : List (Nat × NotificationFilter)) (i : Nat), (∀ u ∈ us, u.user_id ≠ i) →
      dictGet (us.foldl (fun m u => dictSet m u.user_id (user_filter_of u)) m) i =
        dictGet m i := by
  induction us with
  | nil => intro m i _; rfl
  | cons u us ih =>
      intro m i h
      rw [List.foldl_cons, ih _ i (fun v hv => h v (List.mem_cons_of_mem _ hv)),
        dictGet_dictSet]
      simp [h u (List.mem_cons_self _ _)]

/-- C9: a user id with no entry in the loaded filter table is rejected by
`should_notify_user` for every gift and kind (with the state returned
untouched); a fan-out over only such users creates nothing and changes
nothing; every job object ever added to the store belongs to a user that
does have a filter entry; and — because `load_user_filters` is built from
`get_all_users`, which selects `notifications_enabled = 1` only — a
subscriber with notifications disabled (ids being unique) has no filter
entry. -/
theorem C9_absent_filter_never_notified :
    (∀ (st : EngineState) (uid : Nat) (gift : Gift) (ntype : NotificationType) (now : Nat),
      dictGet st.filters uid = none →
      should_notify_user st uid gift ntype now = (false, st)) ∧
    (∀ (st : EngineState) (user_ids : List Nat) (gift : Gift) (ntype : NotificationType)
        (priority : NotificationPriority) (now : Nat),
      (∀ uid ∈ user_ids, dictGet st.filters uid = none) →
      create_notification st user_ids gift ntype priority now = ([], st)) ∧
    (∀ (st : EngineState) (user_ids : List Nat) (gift : Gift) (ntype : NotificationType)
        (priority : NotificationPriority) (now : Nat),
      ∀ p ∈ (create_notification st user_ids gift ntype priority now).2.queue.job_store,
        p ∈ st.queue.job_store ∨ ∃ f, dictGet st.filters p.2.user_id = some f) ∧
    (∀ (db : List User) (u : User), (db.map (fun v => v.user_id)).Nodup → u ∈ db →
      u.notifications_enabled = false →
      dictGet (load_user_filters (get_all_users db)) u.user_id = none) := by
  have habs : ∀ (st : EngineState) (uid : Nat) (gift : Gift) (ntype : NotificationType)
      (now : Nat), dictGet st.filters uid = none →
      should_notify_user st uid gift ntype now = (false, st) := by
    intro st uid gift ntype now h
    simp [should_notify_user, h]
  refine ⟨habs, ?_, ?_, ?_⟩
  · intro st user_ids gift ntype priority now h
    unfold create_notification
    cases ht : dictGet st.templates ntype with
    | none => rfl
    | some template =>
        have hgen : ∀ (uids : List Nat), (∀ uid ∈ uids, dictGet st.filters uid = none) →
            List.foldl (create_notification_step template gift ntype priority now) ([], st) uids
              = ([], st) := by
          intro uids
          induction uids with
          | nil => intro _; rfl
          | cons u us ih =>
              intro h'
              rw [List.foldl_cons]
              have hstep : create_notification_step template gift ntype priority now ([], st) u =
                  ([], st) := by
                simp [create_notification_step, habs st u gift ntype now
                  (h' u (List.mem_cons_self _ _))]
              rw [hstep]
              exact ih (fun v hv => h' v (List.mem_cons_of_mem _ hv))
        exact hgen user_ids h
  · intro st user_ids gift ntype priority now
    unfold create_notification
    cases ht : dictGet st.templates ntype with
    | none => intro p hp; exact Or.inl hp
    | some template =>
        suffices hgen : ∀ (uids : List Nat) (acc : List Nat × EngineState),
            acc.2.filters = st.filters →
            (∀ p ∈ acc.2.queue.job_store, p ∈ st.queue.job_store ∨
              ∃ f, dictGet st.filters p.2.user_id = some f) →
            ∀ p ∈ ((uids.foldl (create_notification_step template gift ntype priority now)
                acc)).2.queue.job_store,
              p ∈ st.queue.job_store ∨ ∃ f, dictGet st.filters p.2.user_id = some f by
          exact hgen user_ids ([], st) rfl (fun p hp => Or.inl hp)
        intro uids
        induction uids with
        | nil => intro acc _ hinv p hp; exact hinv p hp
        | cons u us ih =>
            intro acc hfil hinv
            rw [List.foldl_cons]
            have hpres := should_notify_preserves acc.2 u gift ntype now
            cases hb : (should_notify_user acc.2 u gift ntype now).1 with
            | false =>
                apply ih
                · simp only [create_notification_step, hb]
                  simp [hpres.1, hfil]
                · simp only [create_notification_step, hb]
                  intro p hp
                  simp only [Bool.not_false, if_pos] at hp
                  rw [show ((should_notify_user acc.2 u gift ntype now).2).queue = acc.2.queue
                    from hpres.2] at hp
                  exact hinv p hp
            | true =>
                apply ih
                · simp only [create_notification_step, hb]
                  simp [hpres.1, hfil]
                · simp only [create_notification_step, hb]
                  intro p hp
                  simp only [Bool.not_true, Bool.false_eq_true, if_false, add_job] at hp
                  rw [show ((should_notify_user acc.2 u gift ntype now).2).queue = acc.2.queue
                    from hpres.2] at hp
                  rcases mem_dictSet _ _ _ p hp with heq | hmem
                  · subst heq
                    obtain ⟨f, hf⟩ := should_notify_true_filter acc.2 u gift ntype now hb
                    rw [hfil] at hf
                    exact Or.inr ⟨f, hf⟩
                  · exact hinv p hmem
  · intro db u hnd hu hdis
    unfold load_user_filters
    rw [dictGet_load_user_filters_aux]
    · rfl
    · intro v hv hvid
      have hvdb : v ∈ db := List.mem_of_mem_filter hv
      have hven : v.notifications_enabled = true := by
        have := List.of_mem_filter hv
        simpa using this
      have : v = u := List.inj_on_of_nodup_map hnd hvdb hu hvid
      rw [this, hdis] at hven
      exact absurd hven (by simp)

/-- Witness for C9: `user9` has notifications disabled, so after loading
filters from a two-user store it has no filter entry (hypotheses discharged
concretely). -/
theorem C9_absent_filter_never_notified_witness :
    dictGet (load_user_filters (get_all_users [user7, user9])) user9.user_id = none :=
  C9_absent_filter_never_notified.2.2.2 [user7, user9] user9 (by decide)
    (by decide) rfl

end GiftBot
